import Mathlib

/-!
Verification of the tikplay command-line client (`__main__.py`) against its
natural-language specification.  The submission protocol (`send_song`), the
HTTP wrapper (`wrap_request`), the display formatter (`format_time`) and the
query commands (`send_np`, `send_playlist`, `send_skip`, `send_clear`) are
embedded shallowly: network calls and file operations become events in a
trace, the remote server becomes a pair of response functions, and printed
output becomes a list of lines.
-/

namespace Tikplay

/-- Configuration loaded by the CLI layer: `host` and `verbose`. -/
structure Config where
  host : String
  verbose : Bool
deriving DecidableEq, Repr

/-- One command-line input item.  `isLocal` models `os.path.exists(fn)`;
`content` models the byte content of the file when it exists. -/
structure Input where
  name : String
  isLocal : Bool
  content : List Nat
deriving DecidableEq, Repr

/-- Observable actions of the client: HTTP requests, file-handle operations
and printed lines, in program order. -/
inductive Event where
  | postSong (urlField : String) (filename : Option String)
  | postFile (uploadName : String)
  | openF (fn : String)
  | readF (fn : String)
  | seekF (fn : String)
  | closeF (fn : String)
  | print (line : String)
deriving DecidableEq, Repr

/-- Body of a POST to the `/song` endpoint: the dict
`{user, filename?, url}` serialised by `json.dumps`. -/
structure SongReq where
  user : String
  filename : Option String
  url : String
deriving DecidableEq, Repr

/-- Decoded JSON answer of the `/song` endpoint; the code reads
`result["error"]` and `result["text"]`. -/
structure SongResp where
  error : Bool
  text : String
deriving DecidableEq, Repr

/-- Multipart body of a POST to the `/file` endpoint:
`files={'file': (uploadName, song)}`. -/
structure FileReq where
  uploadName : String
  content : List Nat
deriving DecidableEq, Repr

/-- Decoded JSON answer of the `/file` endpoint; `saved = none` models a
response in which the key `saved` is absent (`"saved" not in result`). -/
structure FileResp where
  saved : Option Bool
  key : String
  text : String
deriving DecidableEq, Repr

/-- The remote service, as the submission loop sees it: each request either
gets a decoded JSON answer or `none` (`send_post` returned `None` because of
a transport or decode failure swallowed by `wrap_request`). -/
structure Server where
  song : SongReq → Option SongResp
  file : FileReq → Option FileResp

/-- Splitting a character list at every occurrence of `c`, in order. -/
def splitOnChar (c : Char) : List Char → List (List Char)
  | [] => [[]]
  | x :: xs =>
    let r := splitOnChar c xs
    if x == c then [] :: r
    else
      match r with
      | [] => [[x]]
      | y :: ys => (x :: y) :: ys

/-- Model of `os.path.basename`: the part after the last slash. -/
def basename (fn : String) : String :=
  String.mk ((splitOnChar '/' fn.data).getLastD fn.data)

/-- Model of `fn.rsplit(".", 1)[-1]`: the part after the last dot (the whole
name when there is no dot). -/
def lastExt (fn : String) : String :=
  String.mk ((splitOnChar '.' fn.data).getLastD fn.data)

/-- Test that `p` is an initial segment of `s`, character by character. -/
def leadsWithL : List Char → List Char → Bool
  | [], _ => true
  | _ :: _, [] => false
  | p :: ps, s :: ss => p == s && leadsWithL ps ss

/-- Model of `s.startswith(p)`. -/
def leadsWith (p s : String) : Bool := leadsWithL p.data s.data

/-- The line printed before classification when `config["verbose"]` is set. -/
def verbosePre (cfg : Config) (inp : Input) : List Event :=
  if cfg.verbose then [Event.print ("Checking filename/URI " ++ inp.name)] else []

/-- The upload phase of `send_song` (lines 102-113 of the source), entered
whenever the existence check did not answer `error == false`: print the
notice, rewind the handle, POST the bytes to `/file`, and on `saved`
re-enqueue under the server-issued key.  Returns the events it appends and
whether the code executes `return` (aborting the whole loop). -/
def uploadStep (srv : Server) (user : String) (inp : Input) (fname : String) :
    List Event × Bool :=
  let up := "upload." ++ lastExt inp.name
  let evs1 : List Event :=
    [Event.print "File not found on the server, sending",
     Event.seekF inp.name, Event.readF inp.name, Event.postFile up]
  match srv.file ⟨up, inp.content⟩ with
  | none => (evs1, false)
  | some fr =>
    if fr.saved = some true then
      let evs2 := evs1 ++
        [Event.print "File sent successfully, adding to playlist",
         Event.postSong fr.key (some fname)]
      match srv.song ⟨user, some fname, fr.key⟩ with
      | some r2 => (evs2 ++ [Event.print r2.text], false)
      | none => (evs2, false)
    else
      (evs1 ++ [Event.print ("Error, file not saved: " ++ fr.text)], true)

/-- One iteration of the `for fn in files` loop of `send_song`.  Returns the
events of this iteration and whether the iteration executed `return` (so the
remaining inputs are never processed). -/
def processItem (srv : Server) (cfg : Config) (user : String)
    (sha1hex : List Nat → String) (inp : Input) : List Event × Bool :=
  if inp.isLocal = false then
    -- URI path: not os.path.exists(fn)
    let evs := verbosePre cfg inp ++ [Event.postSong inp.name none]
    match srv.song ⟨user, none, inp.name⟩ with
    | some r => (evs ++ [Event.print r.text], true)
    | none => (evs, true)
  else
    -- file path: hash, existence check, then possibly upload
    let fname := basename inp.name
    let sha1url := "sha1:" ++ sha1hex inp.content
    let evs0 := verbosePre cfg inp ++
      [Event.openF inp.name, Event.readF inp.name,
       Event.postSong sha1url (some fname)]
    match srv.song ⟨user, some fname, sha1url⟩ with
    | some r =>
      if r.error = false then
        (evs0 ++ [Event.print r.text], false)
      else
        let (d, b) := uploadStep srv user inp fname
        (evs0 ++ d, b)
    | none =>
      let (d, b) := uploadStep srv user inp fname
      (evs0 ++ d, b)

/-- The submission routine `send_song(files, config)`: process the inputs in
order, stopping the whole loop when an iteration executed `return`. -/
def send_song (srv : Server) (cfg : Config) (user : String)
    (sha1hex : List Nat → String) : List Input → List Event
  | [] => []
  | inp :: rest =>
    match processItem srv cfg user sha1hex inp with
    | (evs, true) => evs
    | (evs, false) => evs ++ send_song srv cfg user sha1hex rest

/-- Recogniser for upload (`POST /file`) events. -/
def isPostFile : Event → Bool
  | .postFile _ => true
  | _ => false

/-- Recogniser for enqueue (`POST /song`) events. -/
def isPostSong : Event → Bool
  | .postSong _ _ => true
  | _ => false

/-- Recogniser for file-handle close events. -/
def isCloseEvent : Event → Bool
  | .closeF _ => true
  | _ => false

/-- Recogniser for an `"Error, file not saved: ..."` diagnostic line. -/
def isErrorNotSavedLine : Event → Bool
  | .print s => leadsWith "Error, file not saved: " s
  | _ => false

/-- The events strictly after the first upload request of a trace (everything
in the trace when it has no upload request). -/
def afterFirstUpload (evs : List Event) : List Event :=
  (evs.dropWhile fun e => !(isPostFile e)).drop 1

/-- Model of `" ".join(out)`. -/
def joinSpace : List String → String
  | [] => ""
  | [s] => s
  | s :: rest => s ++ " " ++ joinSpace rest

/-- The display formatter `format_time(secs)`: strict `>` thresholds on the
running remainder, exactly as in the source. -/
def format_time (secs : Nat) : String :=
  let p1 : List String × Nat :=
    if 3600 < secs then ([toString (secs / 3600) ++ "h"], secs % 3600)
    else ([], secs)
  let p2 : List String × Nat :=
    if 60 < p1.2 then (p1.1 ++ [toString (p1.2 / 60) ++ "m"], p1.2 % 60)
    else (p1.1, p1.2)
  joinSpace (p2.1 ++ [toString p2.2 ++ "s"])

/-- Rendering of whole seconds as the claim describes it: canonical
hour/minute/second decomposition with the leading zero-valued larger units
omitted.  Follows the specification's words, for comparison with
`format_time`. -/
def specTimeRender (secs : Nat) : String :=
  let h := secs / 3600
  let m := secs % 3600 / 60
  let s := secs % 60
  joinSpace ((if h = 0 then [] else [toString h ++ "h"]) ++
    (if h = 0 && m = 0 then [] else [toString m ++ "m"]) ++
    [toString s ++ "s"])

/-- One decoded entry of the queue listing; every field may be absent. -/
structure QEntry where
  artist : Option String
  title : Option String
  file : Option String
  time : Option Nat
deriving DecidableEq, Repr

/-- The song name chosen by `send_playlist` for one queue entry. -/
def songName (e : QEntry) : String :=
  match e.artist, e.title with
  | some a, some t => a ++ " - " ++ t
  | _, _ =>
    match e.file with
    | some f => f
    | none => "unknown"

/-- The line `send_playlist` prints for queue entry `e` at index `i`. -/
def queueLine (i : Nat) (e : QEntry) : String :=
  let timePart :=
    match e.time with
    | some t => " (" ++ format_time t ++ ")"
    | none => ""
  "Queue #" ++ toString i ++ ": " ++ songName e ++ timePart

/-- Outcome of the underlying `requests` call inside `wrap_request`:
either a response object whose body is `bodyText` and whose `.json()`
parses to `decoded` (or raises `ValueError` when `decoded = none`), or a
`ConnectionError` raised by the transport, or a `ValueError` raised while
constructing the request itself (before any response exists). -/
inductive MethodResult (α : Type) where
  | success (bodyText : String) (decoded : Option α)
  | connectionError (detail : String)
  | constructionError (detail : String)
deriving DecidableEq, Repr

/-- The gateway `wrap_request`: first component is the value the function
call produces — `Except.ok` for a normal return (`none` when a swallowed
failure made it return `None`), `Except.error` for the re-raised exception —
and the second component is the list of printed lines. -/
def wrap_request {α : Type} : MethodResult α → Except String (Option α) × List String
  | .success _ (some v) => (Except.ok (some v), [])
  | .success bodyText none =>
      (Except.ok none, ["Invalid JSON received: " ++ bodyText])
  | .connectionError d => (Except.ok none, ["Connection error: " ++ d])
  | .constructionError d =>
      (Except.error d, ["An error occurred while constructing the request:"])

/-- One entry of the now-playing answer; `send_np` reads all three fields. -/
structure NpEntry where
  artist : String
  title : String
  time : Nat
deriving DecidableEq, Repr

/-- Decoded answer of `GET /song`. -/
structure NpResp where
  text : List NpEntry
deriving DecidableEq, Repr

/-- Decoded answer of `GET /queue/<n>`. -/
structure PlResp where
  text : List QEntry
deriving DecidableEq, Repr

/-- Outcome of one top-level command: the printed lines, and, when an
exception escaped the command, a description of it. -/
structure CmdResult where
  printed : List String
  crashed : Option String
deriving DecidableEq, Repr

/-- The command `send_np`: subscripts `result["text"][0]` without checking
the gateway outcome, exactly as the source does. -/
def send_np (m : MethodResult NpResp) : CmdResult :=
  match wrap_request m with
  | (Except.error e, out) => ⟨out, some e⟩
  | (Except.ok none, out) =>
      ⟨out, some "TypeError: NoneType object is not subscriptable"⟩
  | (Except.ok (some r), out) =>
    match r.text with
    | [] => ⟨out, some "IndexError: list index out of range"⟩
    | e0 :: _ =>
        ⟨out ++ ["Now playing: " ++ e0.artist ++ " - " ++ e0.title ++
          " (" ++ toString e0.time ++ " seconds)"], none⟩

/-- The command `send_playlist`: guarded by `if result:`, so a `None`
gateway outcome prints nothing further and terminates normally. -/
def send_playlist (m : MethodResult PlResp) : CmdResult :=
  match wrap_request m with
  | (Except.error e, out) => ⟨out, some e⟩
  | (Except.ok none, out) => ⟨out, none⟩
  | (Except.ok (some r), out) =>
      ⟨out ++ (r.text.enum.map fun p => queueLine p.1 p.2), none⟩

/-- Python `print(x)` of the decoded value or of `None`. -/
def pyShow {α : Type} (render : α → String) : Option α → String
  | none => "None"
  | some v => render v

/-- The command `send_skip`: prints the gateway result verbatim. -/
def send_skip {α : Type} (render : α → String) (m : MethodResult α) : CmdResult :=
  match wrap_request m with
  | (Except.error e, out) => ⟨out, some e⟩
  | (Except.ok v, out) => ⟨out ++ [pyShow render v], none⟩

/-- The command `send_clear`: prints the gateway result verbatim. -/
def send_clear {α : Type} (render : α → String) (m : MethodResult α) : CmdResult :=
  match wrap_request m with
  | (Except.error e, out) => ⟨out, some e⟩
  | (Except.ok v, out) => ⟨out ++ [pyShow render v], none⟩

/-- Shorthand for the events of one loop iteration. -/
def itemEvents (srv : Server) (cfg : Config) (user : String)
    (sha1hex : List Nat → String) (inp : Input) : List Event :=
  (processItem srv cfg user sha1hex inp).1

/-- Concrete configuration used by the evaluation witnesses. -/
def cfg0 : Config := ⟨"h", false⟩

/-- Concrete stand-in for the SHA-1 hex digest function. -/
def sha0 : List Nat → String := fun _ => "d0d0"

/-- Concrete local-file input used by the evaluation witnesses. -/
def fileA : Input := ⟨"a.mp3", true, [1, 2]⟩

/-- Concrete remote-URI input used by the evaluation witnesses. -/
def uriB : Input := ⟨"http://x", false, []⟩

/-- Server on which every call fails at the gateway level. -/
def srvDown : Server := ⟨fun _ => none, fun _ => none⟩

/-- Server that already knows every fingerprint. -/
def srvKnown : Server := ⟨fun _ => some ⟨false, "dup"⟩, fun _ => none⟩

/-- Server that knows no fingerprint and accepts every upload. -/
def srvFresh : Server :=
  ⟨fun req => if req.url = "key9" then some ⟨false, "queued"⟩ else some ⟨true, "nf"⟩,
   fun _ => some ⟨some true, "key9", "ok"⟩⟩

/-- Server that knows no fingerprint and whose upload endpoint fails at the
gateway level. -/
def srvUpDown : Server := ⟨fun _ => some ⟨true, "nf"⟩, fun _ => none⟩

/-- Server that knows no fingerprint and rejects every upload with
`saved: false`. -/
def srvReject : Server := ⟨fun _ => some ⟨true, "nf"⟩, fun _ => some ⟨some false, "", "df"⟩⟩

lemma mem_verbosePre {cfg : Config} {inp : Input} {e : Event}
    (he : e ∈ verbosePre cfg inp) : ∃ s, e = Event.print s := by
  unfold verbosePre at he
  split at he
  · simp only [List.mem_singleton] at he
    exact ⟨_, he⟩
  · simp at he

lemma isPostFile_verbosePre {cfg : Config} {inp : Input} :
    ∀ e ∈ verbosePre cfg inp, isPostFile e = false := by
  intro e he
  obtain ⟨s, rfl⟩ := mem_verbosePre he
  rfl

lemma countP_verbosePre (cfg : Config) (inp : Input) (p : Event → Bool)
    (h : ∀ s, p (Event.print s) = false) : (verbosePre cfg inp).countP p = 0 := by
  unfold verbosePre
  split <;> simp [h]

lemma send_song_cons (srv : Server) (cfg : Config) (user : String)
    (sha1hex : List Nat → String) (inp : Input) (rest : List Input) :
    send_song srv cfg user sha1hex (inp :: rest) =
      (processItem srv cfg user sha1hex inp).1 ++
        (if (processItem srv cfg user sha1hex inp).2 = true then []
         else send_song srv cfg user sha1hex rest) := by
  rcases hp : processItem srv cfg user sha1hex inp with ⟨evs, b⟩
  cases b <;> simp [send_song, hp]

lemma afterFirstUpload_decomp (l1 l2 : List Event) (u : String)
    (h : ∀ e ∈ l1, isPostFile e = false) :
    afterFirstUpload (l1 ++ Event.postFile u :: l2) = l2 := by
  induction l1 with
  | nil => simp [afterFirstUpload, List.dropWhile_cons, isPostFile]
  | cons a t ih =>
    have ha := h a (by simp)
    have ht := ih (fun e he => h e (List.mem_cons_of_mem a he))
    simpa [afterFirstUpload, List.dropWhile_cons, ha] using ht

/-- Behaviour of one iteration when the existence check answers
`error == false`. -/
lemma processItem_dedup (srv : Server) (cfg : Config) (user : String)
    (sha1hex : List Nat → String) (inp : Input) (r : SongResp)
    (hl : inp.isLocal = true)
    (hr : srv.song ⟨user, some (basename inp.name),
      "sha1:" ++ sha1hex inp.content⟩ = some r)
    (he : r.error = false) :
    processItem srv cfg user sha1hex inp =
      (verbosePre cfg inp ++
        [Event.openF inp.name, Event.readF inp.name,
         Event.postSong ("sha1:" ++ sha1hex inp.content) (some (basename inp.name)),
         Event.print r.text], false) := by
  simp [processItem, hl, hr, he]

/-- C1: for a local file whose existence-check enqueue answers
`error == false`, the submitter prints the answer's text, issues no upload
request for that item, and continues with the remaining inputs. -/
theorem c1_dedup_no_upload (srv : Server) (cfg : Config) (user : String)
    (sha1hex : List Nat → String) (inp : Input) (rest : List Input) (r : SongResp)
    (hl : inp.isLocal = true)
    (hr : srv.song ⟨user, some (basename inp.name),
      "sha1:" ++ sha1hex inp.content⟩ = some r)
    (he : r.error = false) :
    Event.print r.text ∈ itemEvents srv cfg user sha1hex inp ∧
    (itemEvents srv cfg user sha1hex inp).countP isPostFile = 0 ∧
    (processItem srv cfg user sha1hex inp).2 = false ∧
    send_song srv cfg user sha1hex (inp :: rest) =
      itemEvents srv cfg user sha1hex inp ++ send_song srv cfg user sha1hex rest := by
  have hp := processItem_dedup srv cfg user sha1hex inp r hl hr he
  have h1 : itemEvents srv cfg user sha1hex inp =
      verbosePre cfg inp ++
        [Event.openF inp.name, Event.readF inp.name,
         Event.postSong ("sha1:" ++ sha1hex inp.content) (some (basename inp.name)),
         Event.print r.text] := by
    simp [itemEvents, hp]
  have h2 : (processItem srv cfg user sha1hex inp).2 = false := by simp [hp]
  refine ⟨?_, ?_, h2, ?_⟩
  · simp [h1]
  · simp [h1, List.countP_append, List.countP_cons, isPostFile,
      countP_verbosePre cfg inp isPostFile (fun s => rfl)]
  · rw [send_song_cons, h2, itemEvents]
    simp

/-- C3: once an input is classified as a remote URI, the routine returns
after its enqueue POST, whatever the call produced, and no later input is
ever processed. -/
theorem c3_uri_early_return (srv : Server) (cfg : Config) (user : String)
    (sha1hex : List Nat → String) (inp : Input) (rest rest2 : List Input)
    (hl : inp.isLocal = false) :
    Event.postSong inp.name none ∈ send_song srv cfg user sha1hex (inp :: rest) ∧
    send_song srv cfg user sha1hex (inp :: rest) =
      itemEvents srv cfg user sha1hex inp ∧
    send_song srv cfg user sha1hex (inp :: rest) =
      send_song srv cfg user sha1hex (inp :: rest2) := by
  have h2 : (processItem srv cfg user sha1hex inp).2 = true := by
    rcases hu : srv.song ⟨user, none, inp.name⟩ with _ | r <;>
      simp [processItem, hl, hu]
  have he : send_song srv cfg user sha1hex (inp :: rest) =
      itemEvents srv cfg user sha1hex inp := by
    rw [send_song_cons, h2, itemEvents]
    simp
  have he2 : send_song srv cfg user sha1hex (inp :: rest2) =
      itemEvents srv cfg user sha1hex inp := by
    rw [send_song_cons, h2, itemEvents]
    simp
  refine ⟨?_, he, by rw [he, he2]⟩
  rw [he]
  rcases hu : srv.song ⟨user, none, inp.name⟩ with _ | r <;>
    simp [itemEvents, processItem, hl, hu]

/-- Events of the final enqueue of the upload phase: the printed text when
the call produced an answer, nothing otherwise. -/
def enqTail : Option SongResp → List Event
  | some r2 => [Event.print r2.text]
  | none => []

/-- Behaviour of one iteration when the existence check answers
`error == true` and the upload is accepted with `saved: true`. -/
lemma processItem_upload_success (srv : Server) (cfg : Config) (user : String)
    (sha1hex : List Nat → String) (inp : Input) (r : SongResp) (fr : FileResp)
    (o : Option SongResp)
    (hl : inp.isLocal = true)
    (hr : srv.song ⟨user, some (basename inp.name),
      "sha1:" ++ sha1hex inp.content⟩ = some r)
    (he : r.error = true)
    (hf : srv.file ⟨"upload." ++ lastExt inp.name, inp.content⟩ = some fr)
    (hs : fr.saved = some true)
    (hfin : srv.song ⟨user, some (basename inp.name), fr.key⟩ = o) :
    processItem srv cfg user sha1hex inp =
      ((verbosePre cfg inp ++
        [Event.openF inp.name, Event.readF inp.name,
         Event.postSong ("sha1:" ++ sha1hex inp.content) (some (basename inp.name)),
         Event.print "File not found on the server, sending",
         Event.seekF inp.name, Event.readF inp.name]) ++
        Event.postFile ("upload." ++ lastExt inp.name) ::
          ([Event.print "File sent successfully, adding to playlist",
            Event.postSong fr.key (some (basename inp.name))] ++
           enqTail o), false) := by
  rcases o with _ | r2 <;>
    simp [processItem, uploadStep, enqTail, hl, hr, he, hf, hs, hfin]

/-- C2: for a local file whose fingerprint the server does not know and
whose upload is accepted, the iteration issues exactly one upload request,
followed by exactly one enqueue request, and that enqueue carries the
server-issued key, never the sha1 fingerprint. -/
theorem c2_unknown_upload_then_key_enqueue (srv : Server) (cfg : Config)
    (user : String) (sha1hex : List Nat → String) (inp : Input)
    (r : SongResp) (fr : FileResp)
    (hl : inp.isLocal = true)
    (hr : srv.song ⟨user, some (basename inp.name),
      "sha1:" ++ sha1hex inp.content⟩ = some r)
    (he : r.error = true)
    (hf : srv.file ⟨"upload." ++ lastExt inp.name, inp.content⟩ = some fr)
    (hs : fr.saved = some true) :
    (itemEvents srv cfg user sha1hex inp).countP isPostFile = 1 ∧
    (afterFirstUpload (itemEvents srv cfg user sha1hex inp)).countP isPostSong = 1 ∧
    Event.postSong fr.key (some (basename inp.name)) ∈
      afterFirstUpload (itemEvents srv cfg user sha1hex inp) ∧
    (∀ u f, Event.postSong u f ∈
      afterFirstUpload (itemEvents srv cfg user sha1hex inp) → u = fr.key) ∧
    (fr.key ≠ "sha1:" ++ sha1hex inp.content →
      Event.postSong ("sha1:" ++ sha1hex inp.content) (some (basename inp.name)) ∉
        afterFirstUpload (itemEvents srv cfg user sha1hex inp)) := by
  have hp := processItem_upload_success srv cfg user sha1hex inp r fr
    (srv.song ⟨user, some (basename inp.name), fr.key⟩) hl hr he hf hs rfl
  have h1 : itemEvents srv cfg user sha1hex inp =
      (verbosePre cfg inp ++
        [Event.openF inp.name, Event.readF inp.name,
         Event.postSong ("sha1:" ++ sha1hex inp.content) (some (basename inp.name)),
         Event.print "File not found on the server, sending",
         Event.seekF inp.name, Event.readF inp.name]) ++
        Event.postFile ("upload." ++ lastExt inp.name) ::
          ([Event.print "File sent successfully, adding to playlist",
            Event.postSong fr.key (some (basename inp.name))] ++
           enqTail (srv.song ⟨user, some (basename inp.name), fr.key⟩)) := by
    simp [itemEvents, hp]
  have hpre : ∀ e ∈ verbosePre cfg inp ++
      [Event.openF inp.name, Event.readF inp.name,
       Event.postSong ("sha1:" ++ sha1hex inp.content) (some (basename inp.name)),
       Event.print "File not found on the server, sending",
       Event.seekF inp.name, Event.readF inp.name], isPostFile e = false := by
    intro e he2
    rcases List.mem_append.mp he2 with h | h
    · exact isPostFile_verbosePre e h
    · simp only [List.mem_cons, List.not_mem_nil, or_false] at h
      rcases h with rfl | rfl | rfl | rfl | rfl | rfl <;> rfl
  have haft : afterFirstUpload (itemEvents srv cfg user sha1hex inp) =
      [Event.print "File sent successfully, adding to playlist",
       Event.postSong fr.key (some (basename inp.name))] ++
        enqTail (srv.song ⟨user, some (basename inp.name), fr.key⟩) := by
    rw [h1]
    exact afterFirstUpload_decomp _ _ _ hpre
  have hc0 : (verbosePre cfg inp).countP isPostFile = 0 :=
    countP_verbosePre cfg inp isPostFile (fun s => rfl)
  have h4 : ∀ u f, Event.postSong u f ∈
      afterFirstUpload (itemEvents srv cfg user sha1hex inp) → u = fr.key := by
    intro u f hm
    rw [haft] at hm
    rcases hfin : srv.song ⟨user, some (basename inp.name), fr.key⟩ with _ | r2 <;>
      rw [hfin] at hm <;> simp [enqTail] at hm <;> exact hm.1
  refine ⟨?_, ?_, ?_, h4, fun hne hmem => hne ((h4 _ _ hmem).symm)⟩
  · rw [h1]
    rcases hfin : srv.song ⟨user, some (basename inp.name), fr.key⟩ with _ | r2 <;>
      simp [List.countP_append, List.countP_cons, isPostFile, enqTail, hc0, hfin]
  · rw [haft]
    rcases hfin : srv.song ⟨user, some (basename inp.name), fr.key⟩ with _ | r2 <;>
      simp [List.countP_append, List.countP_cons, isPostSong, enqTail, hfin]
  · rw [haft]
    simp

/-- Evaluation of `c1_dedup_no_upload` on a concrete server that already
knows the fingerprint. -/
theorem c1_dedup_no_upload_witness :
    (fileA.isLocal = true ∧
      srvKnown.song ⟨"u", some (basename fileA.name),
        "sha1:" ++ sha0 fileA.content⟩ = some ⟨false, "dup"⟩ ∧
      (false : Bool) = false) ∧
    (Event.print "dup" ∈ itemEvents srvKnown cfg0 "u" sha0 fileA ∧
     (itemEvents srvKnown cfg0 "u" sha0 fileA).countP isPostFile = 0 ∧
     (processItem srvKnown cfg0 "u" sha0 fileA).2 = false ∧
     send_song srvKnown cfg0 "u" sha0 (fileA :: [uriB]) =
       itemEvents srvKnown cfg0 "u" sha0 fileA ++
         send_song srvKnown cfg0 "u" sha0 [uriB]) :=
  ⟨⟨rfl, rfl, rfl⟩,
   c1_dedup_no_upload srvKnown cfg0 "u" sha0 fileA [uriB] ⟨false, "dup"⟩
     rfl rfl rfl⟩

/-- Evaluation of `c2_unknown_upload_then_key_enqueue` on a concrete server
that does not know the fingerprint and accepts the upload. -/
theorem c2_unknown_upload_then_key_enqueue_witness :
    (fileA.isLocal = true ∧
      srvFresh.song ⟨"u", some (basename fileA.name),
        "sha1:" ++ sha0 fileA.content⟩ = some ⟨true, "nf"⟩ ∧
      srvFresh.file ⟨"upload." ++ lastExt fileA.name, fileA.content⟩ =
        some ⟨some true, "key9", "ok"⟩) ∧
    ((itemEvents srvFresh cfg0 "u" sha0 fileA).countP isPostFile = 1 ∧
     (afterFirstUpload (itemEvents srvFresh cfg0 "u" sha0 fileA)).countP
       isPostSong = 1 ∧
     Event.postSong "key9" (some (basename fileA.name)) ∈
       afterFirstUpload (itemEvents srvFresh cfg0 "u" sha0 fileA)) :=
  ⟨⟨rfl, by decide, by decide⟩,
   (c2_unknown_upload_then_key_enqueue srvFresh cfg0 "u" sha0 fileA
      ⟨true, "nf"⟩ ⟨some true, "key9", "ok"⟩ rfl (by decide) rfl (by decide)
      rfl).1,
   (c2_unknown_upload_then_key_enqueue srvFresh cfg0 "u" sha0 fileA
      ⟨true, "nf"⟩ ⟨some true, "key9", "ok"⟩ rfl (by decide) rfl (by decide)
      rfl).2.1,
   (c2_unknown_upload_then_key_enqueue srvFresh cfg0 "u" sha0 fileA
      ⟨true, "nf"⟩ ⟨some true, "key9", "ok"⟩ rfl (by decide) rfl (by decide)
      rfl).2.2.1⟩

/-- Evaluation of `c3_uri_early_return` on a concrete input list whose head
is a remote URI. -/
theorem c3_uri_early_return_witness :
    (uriB.isLocal = false) ∧
    (Event.postSong "http://x" none ∈ send_song srvDown cfg0 "u" sha0 [uriB, fileA] ∧
     send_song srvDown cfg0 "u" sha0 [uriB, fileA] =
       itemEvents srvDown cfg0 "u" sha0 uriB ∧
     send_song srvDown cfg0 "u" sha0 [uriB, fileA] =
       send_song srvDown cfg0 "u" sha0 [uriB]) := by
  have h := c3_uri_early_return srvDown cfg0 "u" sha0 uriB [fileA] [] rfl
  exact ⟨rfl, by simpa using h.1, h.2.1, h.2.2⟩

/-- Behaviour of one iteration when the existence check produced no result:
the code falls through to the upload phase. -/
lemma processItem_check_none (srv : Server) (cfg : Config) (user : String)
    (sha1hex : List Nat → String) (inp : Input)
    (hl : inp.isLocal = true)
    (hr : srv.song ⟨user, some (basename inp.name),
      "sha1:" ++ sha1hex inp.content⟩ = none) :
    processItem srv cfg user sha1hex inp =
      (verbosePre cfg inp ++
        [Event.openF inp.name, Event.readF inp.name,
         Event.postSong ("sha1:" ++ sha1hex inp.content) (some (basename inp.name))] ++
        (uploadStep srv user inp (basename inp.name)).1,
       (uploadStep srv user inp (basename inp.name)).2) := by
  rcases hu : uploadStep srv user inp (basename inp.name) with ⟨d, b⟩
  simp [processItem, hl, hr, hu]

/-- Behaviour of one iteration when the existence check answered
`error == true`: the code enters the upload phase. -/
lemma processItem_check_error (srv : Server) (cfg : Config) (user : String)
    (sha1hex : List Nat → String) (inp : Input) (r : SongResp)
    (hl : inp.isLocal = true)
    (hr : srv.song ⟨user, some (basename inp.name),
      "sha1:" ++ sha1hex inp.content⟩ = some r)
    (he : r.error = true) :
    processItem srv cfg user sha1hex inp =
      (verbosePre cfg inp ++
        [Event.openF inp.name, Event.readF inp.name,
         Event.postSong ("sha1:" ++ sha1hex inp.content) (some (basename inp.name))] ++
        (uploadStep srv user inp (basename inp.name)).1,
       (uploadStep srv user inp (basename inp.name)).2) := by
  rcases hu : uploadStep srv user inp (basename inp.name) with ⟨d, b⟩
  simp [processItem, hl, hr, he, hu]

/-- Shape of the upload phase when the upload call produced no result. -/
lemma uploadStep_gateway_failure (srv : Server) (user : String) (inp : Input)
    (fname : String)
    (hf : srv.file ⟨"upload." ++ lastExt inp.name, inp.content⟩ = none) :
    uploadStep srv user inp fname =
      ([Event.print "File not found on the server, sending",
        Event.seekF inp.name, Event.readF inp.name,
        Event.postFile ("upload." ++ lastExt inp.name)], false) := by
  simp [uploadStep, hf]

/-- Shape of the upload phase when the upload answer lacks `saved: true`. -/
lemma uploadStep_reject (srv : Server) (user : String) (inp : Input)
    (fname : String) (fr : FileResp)
    (hf : srv.file ⟨"upload." ++ lastExt inp.name, inp.content⟩ = some fr)
    (hs : fr.saved ≠ some true) :
    uploadStep srv user inp fname =
      ([Event.print "File not found on the server, sending",
        Event.seekF inp.name, Event.readF inp.name,
        Event.postFile ("upload." ++ lastExt inp.name),
        Event.print ("Error, file not saved: " ++ fr.text)], true) := by
  simp [uploadStep, hf, hs]

/-- The upload phase begins with the notice, the rewind, the re-read and the
upload request, and issues no upload request after that one. -/
lemma uploadStep_shape (srv : Server) (user : String) (inp : Input)
    (fname : String) :
    ∃ tail : List Event,
      (uploadStep srv user inp fname).1 =
        [Event.print "File not found on the server, sending",
         Event.seekF inp.name, Event.readF inp.name,
         Event.postFile ("upload." ++ lastExt inp.name)] ++ tail ∧
      tail.countP isPostFile = 0 ∧ tail.countP isCloseEvent = 0 := by
  rcases hf : srv.file ⟨"upload." ++ lastExt inp.name, inp.content⟩ with _ | fr
  · exact ⟨[], by simp [uploadStep_gateway_failure srv user inp fname hf], rfl, rfl⟩
  · by_cases hs : fr.saved = some true
    · rcases ho : srv.song ⟨user, some fname, fr.key⟩ with _ | r2
      · refine ⟨[Event.print "File sent successfully, adding to playlist",
          Event.postSong fr.key (some fname)], ?_, rfl, rfl⟩
        simp [uploadStep, hf, hs, ho]
      · refine ⟨[Event.print "File sent successfully, adding to playlist",
          Event.postSong fr.key (some fname), Event.print r2.text], ?_, rfl, rfl⟩
        simp [uploadStep, hf, hs, ho]
    · refine ⟨[Event.print ("Error, file not saved: " ++ fr.text)], ?_, rfl, rfl⟩
      simp [uploadStep_reject srv user inp fname fr hf hs]

/-- C4, counterexample: with a server whose existence check fails at the
gateway level, the item is not abandoned — the submitter issues the upload
request and announces it. -/
theorem c4_counterexample :
    srvDown.song ⟨"u", some "a.mp3", "sha1:d0d0"⟩ = none ∧
    fileA.isLocal = true ∧
    Event.postFile "upload.mp3" ∈ send_song srvDown cfg0 "u" sha0 [fileA] ∧
    Event.print "File not found on the server, sending" ∈
      send_song srvDown cfg0 "u" sha0 [fileA] := by decide

/-- C4 as amended: when the existence check yields no result, the submitter
proceeds exactly as when the server does not know the fingerprint — it
prints the notice and issues exactly one upload request for the item. -/
theorem c4_gateway_failure_proceeds_to_upload (srv : Server) (cfg : Config)
    (user : String) (sha1hex : List Nat → String) (inp : Input)
    (hl : inp.isLocal = true)
    (hr : srv.song ⟨user, some (basename inp.name),
      "sha1:" ++ sha1hex inp.content⟩ = none) :
    Event.print "File not found on the server, sending" ∈
      itemEvents srv cfg user sha1hex inp ∧
    Event.postFile ("upload." ++ lastExt inp.name) ∈
      itemEvents srv cfg user sha1hex inp ∧
    (itemEvents srv cfg user sha1hex inp).countP isPostFile = 1 := by
  obtain ⟨tail, htail, hcount, _⟩ := uploadStep_shape srv user inp (basename inp.name)
  have h1 : itemEvents srv cfg user sha1hex inp =
      verbosePre cfg inp ++
        [Event.openF inp.name, Event.readF inp.name,
         Event.postSong ("sha1:" ++ sha1hex inp.content) (some (basename inp.name))] ++
        ([Event.print "File not found on the server, sending",
          Event.seekF inp.name, Event.readF inp.name,
          Event.postFile ("upload." ++ lastExt inp.name)] ++ tail) := by
    rw [itemEvents, processItem_check_none srv cfg user sha1hex inp hl hr, ← htail]
  have hc0 : (verbosePre cfg inp).countP isPostFile = 0 :=
    countP_verbosePre cfg inp isPostFile (fun s => rfl)
  refine ⟨?_, ?_, ?_⟩
  · simp [h1]
  · simp [h1]
  · simp [h1, List.countP_append, List.countP_cons, isPostFile, hc0, hcount]

/-- C5, counterexample: when the upload call itself yields no result the
submitter prints no `"Error, file not saved"` line at all (and issues no
enqueue after the upload) — the item dies silently. -/
theorem c5_counterexample :
    srvUpDown.file ⟨"upload.mp3", [1, 2]⟩ = none ∧
    Event.postFile "upload.mp3" ∈ send_song srvUpDown cfg0 "u" sha0 [fileA] ∧
    (send_song srvUpDown cfg0 "u" sha0 [fileA]).countP isErrorNotSavedLine = 0 ∧
    (afterFirstUpload (send_song srvUpDown cfg0 "u" sha0 [fileA])).countP
      isPostSong = 0 := by decide

/-- C5 as amended: when the upload answers without `saved: true` the
submitter prints the `"Error, file not saved"` message, issues no enqueue
for the item, and returns from the whole routine; when the upload yields no
result the iteration ends silently after the upload request, again with no
enqueue. -/
theorem c5_upload_failure_no_enqueue (srv : Server) (cfg : Config)
    (user : String) (sha1hex : List Nat → String) (inp : Input) (r : SongResp)
    (hl : inp.isLocal = true)
    (hr : srv.song ⟨user, some (basename inp.name),
      "sha1:" ++ sha1hex inp.content⟩ = some r)
    (he : r.error = true) :
    (∀ fr, srv.file ⟨"upload." ++ lastExt inp.name, inp.content⟩ = some fr →
      fr.saved ≠ some true →
      Event.print ("Error, file not saved: " ++ fr.text) ∈
        itemEvents srv cfg user sha1hex inp ∧
      (afterFirstUpload (itemEvents srv cfg user sha1hex inp)).countP
        isPostSong = 0 ∧
      (processItem srv cfg user sha1hex inp).2 = true) ∧
    (srv.file ⟨"upload." ++ lastExt inp.name, inp.content⟩ = none →
      itemEvents srv cfg user sha1hex inp =
        verbosePre cfg inp ++
          [Event.openF inp.name, Event.readF inp.name,
           Event.postSong ("sha1:" ++ sha1hex inp.content) (some (basename inp.name)),
           Event.print "File not found on the server, sending",
           Event.seekF inp.name, Event.readF inp.name,
           Event.postFile ("upload." ++ lastExt inp.name)] ∧
      (processItem srv cfg user sha1hex inp).2 = false) := by
  have hpe := processItem_check_error srv cfg user sha1hex inp r hl hr he
  constructor
  · intro fr hf hs
    have hu := uploadStep_reject srv user inp (basename inp.name) fr hf hs
    have h1 : itemEvents srv cfg user sha1hex inp =
        (verbosePre cfg inp ++
          [Event.openF inp.name, Event.readF inp.name,
           Event.postSong ("sha1:" ++ sha1hex inp.content) (some (basename inp.name)),
           Event.print "File not found on the server, sending",
           Event.seekF inp.name, Event.readF inp.name]) ++
          Event.postFile ("upload." ++ lastExt inp.name) ::
            [Event.print ("Error, file not saved: " ++ fr.text)] := by
      rw [itemEvents, hpe, hu]
      simp
    have hpre : ∀ e ∈ verbosePre cfg inp ++
        [Event.openF inp.name, Event.readF inp.name,
         Event.postSong ("sha1:" ++ sha1hex inp.content) (some (basename inp.name)),
         Event.print "File not found on the server, sending",
         Event.seekF inp.name, Event.readF inp.name], isPostFile e = false := by
      intro e he2
      rcases List.mem_append.mp he2 with h | h
      · exact isPostFile_verbosePre e h
      · simp only [List.mem_cons, List.not_mem_nil, or_false] at h
        rcases h with rfl | rfl | rfl | rfl | rfl | rfl <;> rfl
    have haft : afterFirstUpload (itemEvents srv cfg user sha1hex inp) =
        [Event.print ("Error, file not saved: " ++ fr.text)] := by
      rw [h1]
      exact afterFirstUpload_decomp _ _ _ hpre
    refine ⟨by simp [h1], by simp [haft, isPostSong, List.countP_cons], ?_⟩
    rw [hpe]
    simp [hu]
  · intro hf
    have hu := uploadStep_gateway_failure srv user inp (basename inp.name) hf
    constructor
    · rw [itemEvents, hpe, hu]
      simp
    · rw [hpe]
      simp [hu]

/-- C6, counterexample: a `saved: false` upload answer for the first input
aborts the whole routine, so the second input — which on its own would have
produced an enqueue request — is never processed. -/
theorem c6_counterexample :
    srvReject.file ⟨"upload.mp3", [1, 2]⟩ = some ⟨some false, "", "df"⟩ ∧
    Event.postSong "http://x" none ∈ send_song srvReject cfg0 "u" sha0 [uriB] ∧
    Event.postSong "http://x" none ∉
      send_song srvReject cfg0 "u" sha0 [fileA, uriB] := by decide

/-- C6 as amended: besides the remote-URI early return, the only failure
that aborts the later inputs is an upload answer without `saved: true`; a
local item whose upload call either fails at the gateway level or answers
`saved: true` (and any item settled by the existence check) always hands
control to the next input. -/
theorem c6_only_reject_aborts (srv : Server) (cfg : Config) (user : String)
    (sha1hex : List Nat → String) (inp : Input) (rest : List Input)
    (hl : inp.isLocal = true)
    (hnf : (srv.file ⟨"upload." ++ lastExt inp.name, inp.content⟩).all
      (fun fr => fr.saved == some true) = true) :
    (processItem srv cfg user sha1hex inp).2 = false ∧
    send_song srv cfg user sha1hex (inp :: rest) =
      itemEvents srv cfg user sha1hex inp ++
        send_song srv cfg user sha1hex rest := by
  have hup : (uploadStep srv user inp (basename inp.name)).2 = false := by
    rcases hf : srv.file ⟨"upload." ++ lastExt inp.name, inp.content⟩ with _ | fr
    · simp [uploadStep_gateway_failure srv user inp (basename inp.name) hf]
    · have hs : fr.saved = some true := by
        rw [hf] at hnf
        simpa [Option.all] using hnf
      rcases ho : srv.song ⟨user, some (basename inp.name), fr.key⟩ with _ | r2 <;>
        simp [uploadStep, hf, hs, ho]
  have h2 : (processItem srv cfg user sha1hex inp).2 = false := by
    rcases hr : srv.song ⟨user, some (basename inp.name),
        "sha1:" ++ sha1hex inp.content⟩ with _ | r
    · rw [processItem_check_none srv cfg user sha1hex inp hl hr]
      exact hup
    · by_cases he : r.error = false
      · rw [processItem_dedup srv cfg user sha1hex inp r hl hr he]
      · have he' : r.error = true := by
          revert he
          cases r.error <;> simp
        rw [processItem_check_error srv cfg user sha1hex inp r hl hr he']
        exact hup
  refine ⟨h2, ?_⟩
  rw [send_song_cons, h2, itemEvents]
  simp

/-- Evaluation of `c4_gateway_failure_proceeds_to_upload` on a concrete
server whose calls all fail at the gateway level. -/
theorem c4_gateway_failure_proceeds_to_upload_witness :
    (fileA.isLocal = true ∧
      srvDown.song ⟨"u", some (basename fileA.name),
        "sha1:" ++ sha0 fileA.content⟩ = none) ∧
    (Event.print "File not found on the server, sending" ∈
      itemEvents srvDown cfg0 "u" sha0 fileA ∧
    Event.postFile ("upload." ++ lastExt fileA.name) ∈
      itemEvents srvDown cfg0 "u" sha0 fileA ∧
    (itemEvents srvDown cfg0 "u" sha0 fileA).countP isPostFile = 1) :=
  ⟨⟨rfl, rfl⟩,
   c4_gateway_failure_proceeds_to_upload srvDown cfg0 "u" sha0 fileA rfl rfl⟩

/-- Evaluation of `c5_upload_failure_no_enqueue` on a concrete server that
rejects the upload with `saved: false`. -/
theorem c5_upload_failure_no_enqueue_witness :
    (fileA.isLocal = true ∧
      srvReject.song ⟨"u", some (basename fileA.name),
        "sha1:" ++ sha0 fileA.content⟩ = some ⟨true, "nf"⟩ ∧
      srvReject.file ⟨"upload." ++ lastExt fileA.name, fileA.content⟩ =
        some ⟨some false, "", "df"⟩) ∧
    (Event.print ("Error, file not saved: " ++ "df") ∈
      itemEvents srvReject cfg0 "u" sha0 fileA ∧
    (afterFirstUpload (itemEvents srvReject cfg0 "u" sha0 fileA)).countP
      isPostSong = 0 ∧
    (processItem srvReject cfg0 "u" sha0 fileA).2 = true) :=
  ⟨⟨rfl, rfl, rfl⟩,
   (c5_upload_failure_no_enqueue srvReject cfg0 "u" sha0 fileA ⟨true, "nf"⟩
      rfl rfl rfl).1 ⟨some false, "", "df"⟩ rfl (by decide)⟩

/-- Evaluation of `c6_only_reject_aborts` on a concrete server that accepts
the upload: the second input is processed. -/
theorem c6_only_reject_aborts_witness :
    (fileA.isLocal = true ∧
      (srvFresh.file ⟨"upload." ++ lastExt fileA.name, fileA.content⟩).all
        (fun fr => fr.saved == some true) = true) ∧
    ((processItem srvFresh cfg0 "u" sha0 fileA).2 = false ∧
     send_song srvFresh cfg0 "u" sha0 (fileA :: [uriB]) =
       itemEvents srvFresh cfg0 "u" sha0 fileA ++
         send_song srvFresh cfg0 "u" sha0 [uriB]) :=
  ⟨⟨rfl, rfl⟩,
   c6_only_reject_aborts srvFresh cfg0 "u" sha0 fileA [uriB] rfl rfl⟩

/-- C7: the gateway returns no value and prints `"Connection error: ..."`
on a transport failure, returns no value and prints
`"Invalid JSON received: ..."` with the raw body when the response is not
valid JSON — never raising in either recoverable case — and re-raises a
request-construction failure to the caller. -/
theorem c7_gateway_contract (α : Type) :
    (∀ d, wrap_request (MethodResult.connectionError d : MethodResult α) =
      (Except.ok none, ["Connection error: " ++ d])) ∧
    (∀ bodyText, wrap_request (MethodResult.success bodyText (none : Option α)) =
      (Except.ok none, ["Invalid JSON received: " ++ bodyText])) ∧
    (∀ d, wrap_request (MethodResult.constructionError d : MethodResult α) =
      (Except.error d, ["An error occurred while constructing the request:"])) :=
  ⟨fun _ => rfl, fun _ => rfl, fun _ => rfl⟩

/-- Evaluation of `c7_gateway_contract` at a concrete payload type and
detail strings. -/
theorem c7_gateway_contract_witness :
    wrap_request (MethodResult.connectionError "refused" : MethodResult Nat) =
      (Except.ok none, ["Connection error: " ++ "refused"]) ∧
    wrap_request (MethodResult.success "<html>" (none : Option Nat)) =
      (Except.ok none, ["Invalid JSON received: " ++ "<html>"]) ∧
    wrap_request (MethodResult.constructionError "bad arg" : MethodResult Nat) =
      (Except.error "bad arg",
       ["An error occurred while constructing the request:"]) :=
  ⟨(c7_gateway_contract Nat).1 "refused",
   (c7_gateway_contract Nat).2.1 "<html>",
   (c7_gateway_contract Nat).2.2 "bad arg"⟩

/-- C8: against a connection-refusing host, `playlist`, `skip` and `clear`
print the connection diagnostic and finish without an escaping exception,
but `np` subscripts the `None` gateway result and lets a `TypeError` escape
right after printing the diagnostic — the code, not the claim, is at
fault for `np`. -/
theorem c8_np_crashes_on_refused_connection :
    (send_np (MethodResult.connectionError "refused")).printed =
      ["Connection error: " ++ "refused"] ∧
    (send_np (MethodResult.connectionError "refused")).crashed =
      some "TypeError: NoneType object is not subscriptable" ∧
    send_playlist (MethodResult.connectionError "refused") =
      ⟨["Connection error: " ++ "refused"], none⟩ ∧
    send_skip (fun n : Nat => toString n) (MethodResult.connectionError "refused") =
      ⟨["Connection error: " ++ "refused", "None"], none⟩ ∧
    send_clear (fun n : Nat => toString n) (MethodResult.connectionError "refused") =
      ⟨["Connection error: " ++ "refused", "None"], none⟩ :=
  ⟨rfl, rfl, rfl, rfl, rfl⟩

lemma joinSpace_single (a : String) : joinSpace [a] = a := rfl

lemma joinSpace_pair (a b : String) : joinSpace [a, b] = a ++ " " ++ b := rfl

lemma joinSpace_triple (a b c : String) :
    joinSpace [a, b, c] = a ++ " " ++ (b ++ " " ++ c) := rfl

/-- C9, counterexample: at exactly 60 seconds the formatter prints `"60s"`,
not the `"1m 0s"` that the canonical hour/minute/second decomposition with
leading zero-valued units omitted would give; at 125 the two agree. -/
theorem c9_counterexample :
    format_time 60 = "60s" ∧
    specTimeRender 60 = "1m 0s" ∧
    format_time 60 ≠ specTimeRender 60 ∧
    format_time 125 = "2m 5s" ∧
    specTimeRender 125 = "2m 5s" := by decide

/-- C9 as amended: the formatter emits an hours segment only when the total
strictly exceeds 3600 seconds and a minutes segment only when the running
remainder strictly exceeds 60 seconds, so away from the unit boundaries it
renders the canonical decomposition, while exact boundaries stay in the
smaller unit; 125 renders as `"2m 5s"`, and a queue entry without a time
field is printed with no time suffix at all. -/
theorem c9_format_time_strict_thresholds :
    (∀ n : Nat, n ≤ 60 → format_time n = toString n ++ "s") ∧
    (∀ n : Nat, 60 < n → n ≤ 3600 →
      format_time n = toString (n / 60) ++ "m" ++ " " ++ (toString (n % 60) ++ "s")) ∧
    (∀ n : Nat, 3600 < n → 60 < n % 3600 →
      format_time n = toString (n / 3600) ++ "h" ++ " " ++
        (toString (n % 3600 / 60) ++ "m" ++ " " ++ (toString (n % 60) ++ "s"))) ∧
    (∀ n : Nat, 3600 < n → n % 3600 ≤ 60 →
      format_time n = toString (n / 3600) ++ "h" ++ " " ++
        (toString (n % 3600) ++ "s")) ∧
    format_time 125 = "2m 5s" ∧
    (∀ i e, e.time = none →
      queueLine i e = "Queue #" ++ toString i ++ ": " ++ songName e) ∧
    (∀ i e t, e.time = some t →
      queueLine i e = "Queue #" ++ toString i ++ ": " ++ songName e ++
        (" (" ++ format_time t ++ ")")) := by
  refine ⟨?_, ?_, ?_, ?_, by decide, ?_, ?_⟩
  · intro n h
    have h1 : ¬ 3600 < n := by omega
    have h2 : ¬ 60 < n := by omega
    simp [format_time, h1, h2, joinSpace_single]
  · intro n h1 h2
    have h3 : ¬ 3600 < n := by omega
    simp [format_time, h1, h3, joinSpace_pair]
  · intro n h1 h2
    have h3 : n % 3600 % 60 = n % 60 :=
      Nat.mod_mod_of_dvd n (by norm_num)
    simp [format_time, h1, h2, h3, joinSpace_triple]
  · intro n h1 h2
    have h3 : ¬ 60 < n % 3600 := by omega
    simp [format_time, h1, h3, joinSpace_pair]
  · intro i e ht
    simp [queueLine, ht]
  · intro i e t ht
    simp [queueLine, ht]

/-- Evaluation of `c9_format_time_strict_thresholds` in the minute range. -/
theorem c9_format_time_strict_thresholds_witness :
    (60 < 125 ∧ 125 ≤ 3600) ∧
    format_time 125 =
      toString (125 / 60) ++ "m" ++ " " ++ (toString (125 % 60) ++ "s") :=
  ⟨⟨by decide, by decide⟩,
   c9_format_time_strict_thresholds.2.1 125 (by decide) (by decide)⟩

lemma countP_close_uploadStep (srv : Server) (user : String) (inp : Input)
    (fname : String) :
    ((uploadStep srv user inp fname).1).countP isCloseEvent = 0 := by
  obtain ⟨tail, ht, _, hc⟩ := uploadStep_shape srv user inp fname
  rw [ht]
  simp [List.countP_append, List.countP_cons, isCloseEvent, hc]

lemma countP_close_processItem (srv : Server) (cfg : Config) (user : String)
    (sha1hex : List Nat → String) (inp : Input) :
    ((processItem srv cfg user sha1hex inp).1).countP isCloseEvent = 0 := by
  have hv := countP_verbosePre cfg inp isCloseEvent (fun s => rfl)
  by_cases hl : inp.isLocal = true
  · rcases hr : srv.song ⟨user, some (basename inp.name),
        "sha1:" ++ sha1hex inp.content⟩ with _ | r
    · rw [processItem_check_none srv cfg user sha1hex inp hl hr]
      simp [List.countP_append, List.countP_cons, isCloseEvent, hv,
        countP_close_uploadStep]
    · by_cases he : r.error = false
      · rw [processItem_dedup srv cfg user sha1hex inp r hl hr he]
        simp [List.countP_append, List.countP_cons, isCloseEvent, hv]
      · have he' : r.error = true := by
          revert he
          cases r.error <;> simp
        rw [processItem_check_error srv cfg user sha1hex inp r hl hr he']
        simp [List.countP_append, List.countP_cons, isCloseEvent, hv,
          countP_close_uploadStep]
  · have hl' : inp.isLocal = false := by
      revert hl
      cases inp.isLocal <;> simp
    rcases hu : srv.song ⟨user, none, inp.name⟩ with _ | r <;>
      simp [processItem, hl', hu, List.countP_append, List.countP_cons,
        isCloseEvent, hv]

lemma countP_close_send_song (srv : Server) (cfg : Config) (user : String)
    (sha1hex : List Nat → String) :
    ∀ files, (send_song srv cfg user sha1hex files).countP isCloseEvent = 0
  | [] => rfl
  | inp :: rest => by
    rw [send_song_cons]
    rcases h2 : (processItem srv cfg user sha1hex inp).2 <;>
      simp [List.countP_append, countP_close_processItem,
        countP_close_send_song srv cfg user sha1hex rest]

/-- C10, counterexample: a complete successful submission of a local file
opens the handle but the whole run contains no close operation — the handle
is not released when the item's processing ends. -/
theorem c10_counterexample :
    fileA.isLocal = true ∧
    Event.openF "a.mp3" ∈ send_song srvFresh cfg0 "u" sha0 [fileA] ∧
    (send_song srvFresh cfg0 "u" sha0 [fileA]).countP isCloseEvent = 0 := by
  decide

/-- C10 as amended: for a local item the handle is opened and read for
hashing, and rewound whenever the upload request is issued, but no exit
path ever closes it — no run of the submission routine contains a close
operation; release is left to interpreter finalisation. -/
theorem c10_handle_never_closed (srv : Server) (cfg : Config) (user : String)
    (sha1hex : List Nat → String) (inp : Input) (files : List Input)
    (hl : inp.isLocal = true) :
    Event.openF inp.name ∈ itemEvents srv cfg user sha1hex inp ∧
    Event.readF inp.name ∈ itemEvents srv cfg user sha1hex inp ∧
    (Event.postFile ("upload." ++ lastExt inp.name) ∈
        itemEvents srv cfg user sha1hex inp →
      Event.seekF inp.name ∈ itemEvents srv cfg user sha1hex inp) ∧
    (itemEvents srv cfg user sha1hex inp).countP isCloseEvent = 0 ∧
    (send_song srv cfg user sha1hex files).countP isCloseEvent = 0 := by
  have hmain : Event.openF inp.name ∈ itemEvents srv cfg user sha1hex inp ∧
      Event.readF inp.name ∈ itemEvents srv cfg user sha1hex inp ∧
      (Event.postFile ("upload." ++ lastExt inp.name) ∈
          itemEvents srv cfg user sha1hex inp →
        Event.seekF inp.name ∈ itemEvents srv cfg user sha1hex inp) := by
    rcases hr : srv.song ⟨user, some (basename inp.name),
        "sha1:" ++ sha1hex inp.content⟩ with _ | r
    · obtain ⟨tail, ht, _, _⟩ := uploadStep_shape srv user inp (basename inp.name)
      have h1 : itemEvents srv cfg user sha1hex inp =
          verbosePre cfg inp ++
            [Event.openF inp.name, Event.readF inp.name,
             Event.postSong ("sha1:" ++ sha1hex inp.content)
               (some (basename inp.name))] ++
            ([Event.print "File not found on the server, sending",
              Event.seekF inp.name, Event.readF inp.name,
              Event.postFile ("upload." ++ lastExt inp.name)] ++ tail) := by
        simp [itemEvents, processItem_check_none srv cfg user sha1hex inp hl hr, ht]
      exact ⟨by simp [h1], by simp [h1], fun _ => by simp [h1]⟩
    · by_cases he : r.error = false
      · have h2 : itemEvents srv cfg user sha1hex inp =
            verbosePre cfg inp ++
              [Event.openF inp.name, Event.readF inp.name,
               Event.postSong ("sha1:" ++ sha1hex inp.content)
                 (some (basename inp.name)),
               Event.print r.text] := by
          simp [itemEvents, processItem_dedup srv cfg user sha1hex inp r hl hr he]
        have hnot : Event.postFile ("upload." ++ lastExt inp.name) ∉
            itemEvents srv cfg user sha1hex inp := by
          rw [h2]
          intro hpf
          rcases List.mem_append.mp hpf with h | h
          · obtain ⟨s, hs2⟩ := mem_verbosePre h
            exact Event.noConfusion hs2
          · simp at h
        exact ⟨by simp [h2], by simp [h2], fun hpf => absurd hpf hnot⟩
      · have he' : r.error = true := by
          revert he
          cases r.error <;> simp
        obtain ⟨tail, ht, _, _⟩ := uploadStep_shape srv user inp (basename inp.name)
        have h1 : itemEvents srv cfg user sha1hex inp =
            verbosePre cfg inp ++
              [Event.openF inp.name, Event.readF inp.name,
               Event.postSong ("sha1:" ++ sha1hex inp.content)
                 (some (basename inp.name))] ++
              ([Event.print "File not found on the server, sending",
                Event.seekF inp.name, Event.readF inp.name,
                Event.postFile ("upload." ++ lastExt inp.name)] ++ tail) := by
          simp [itemEvents,
            processItem_check_error srv cfg user sha1hex inp r hl hr he', ht]
        exact ⟨by simp [h1], by simp [h1], fun _ => by simp [h1]⟩
  refine ⟨hmain.1, hmain.2.1, hmain.2.2, ?_, countP_close_send_song srv cfg user sha1hex files⟩
  exact countP_close_processItem srv cfg user sha1hex inp

/-- Evaluation of `c10_handle_never_closed` on a concrete successful run. -/
theorem c10_handle_never_closed_witness :
    fileA.isLocal = true ∧
    (Event.openF fileA.name ∈ itemEvents srvFresh cfg0 "u" sha0 fileA ∧
     Event.readF fileA.name ∈ itemEvents srvFresh cfg0 "u" sha0 fileA ∧
     (itemEvents srvFresh cfg0 "u" sha0 fileA).countP isCloseEvent = 0 ∧
     (send_song srvFresh cfg0 "u" sha0 [fileA, uriB]).countP isCloseEvent = 0) := by
  have h := c10_handle_never_closed srvFresh cfg0 "u" sha0 fileA [fileA, uriB] rfl
  exact ⟨rfl, h.1, h.2.1, h.2.2.2.1, h.2.2.2.2⟩

end Tikplay
